import Mathlib

/-!
Verification of the Ultraloq WiFi lock API client
(`custom_components/ultraloq_wifi/api.py` and
`custom_components/ultraloq_wifi/coordinator.py`).

The Python client manipulates loosely typed JSON dictionaries, so the
embedding is built on a small JSON value type with association-list
objects.  Python's `dict.get(key, default)` is modelled by `Json.getD`,
Python truthiness by `pyTruthy`, and Python `==` between a JSON value
and an int/string literal by `Json.beqNum` / `Json.beqStr` (note that in
Python `True == 1`, which `beqNum` reproduces for the `bool` case).

Exceptions are modelled explicitly: `ApiExc.api` is `UltraloqApiError`,
`ApiExc.auth` is its subclass `UltraloqAuthError`, and `ApiExc.exc` is
any other Python `Exception` (e.g. a bare `json.JSONDecodeError` escaping
`response.json()`).  An `except UltraloqApiError` clause catches `api`
and `auth` but not `exc`; an `except Exception` clause catches all three.
HTTP interactions are supplied as values of `HttpResp` (status, body
text, optional parse result); an `Except.error` transport input stands
for an `aiohttp.ClientError`.
-/

namespace Ultraloq

/-- JSON values as passed around by the Python client.  Objects are
association lists; the vendor responses have distinct keys, and lookups
return the first match exactly as a `dict` would. -/
inductive Json where
  | null
  | bool (b : Bool)
  | num (n : Int)
  | str (s : String)
  | arr (xs : List Json)
  | obj (kvs : List (String × Json))

/-- `d.get(key)` on a dict: `none` when the key is missing.  On a
non-object this returns `none`; the Python code only calls `.get` on
dict-shaped values. -/
def Json.lookup : Json → String → Option Json
  | .obj kvs, k => List.lookup k kvs
  | _, _ => none

/-- `d.get(key, default)`. -/
def Json.getD (j : Json) (k : String) (d : Json) : Json :=
  (j.lookup k).getD d

/-- Python `v == n` for an int literal `n`.  `None == n`, `"x" == n`,
list/dict comparisons are `False`; `True == 1` and `False == 0` hold. -/
def Json.beqNum : Json → Int → Bool
  | .num m, n => m == n
  | .bool b, n => (if b then (1 : Int) else 0) == n
  | _, _ => false

/-- Python `v == s` for a string literal `s`. -/
def Json.beqStr : Json → String → Bool
  | .str a, s => a == s
  | _, _ => false

/-- Python truthiness of a JSON value, as used by `bool(...)`. -/
def pyTruthy : Json → Bool
  | .null => false
  | .bool b => b
  | .num n => !(n == 0)
  | .str s => !(s == "")
  | .arr xs => !xs.isEmpty
  | .obj kvs => !kvs.isEmpty

/-- Python truthiness of an optional string field (`if not self._api_token`). -/
def pyTruthyStr : Option String → Bool
  | none => false
  | some s => !(s == "")

/-- Python `f"{b}"` for a bool. -/
def pyBoolStr (b : Bool) : String :=
  if b then "True" else "False"

/-- Python `f"{v}"` for a JSON value, used only to build error-message
strings.  Container formatting is abbreviated; no claim inspects it. -/
def pyFormat : Json → String
  | .null => "None"
  | .bool b => pyBoolStr b
  | .num n => toString n
  | .str s => s
  | .arr _ => "<list>"
  | .obj _ => "<dict>"

/-- `result.get('description', 'Unknown error')` as interpolated into
the API error messages. -/
def descriptionOf (result : Json) : String :=
  match result.lookup "description" with
  | none => "Unknown error"
  | some j => pyFormat j

/-- Exceptions visible to the client's `try`/`except` clauses. -/
inductive ApiExc where
  | api (m : String)
  | auth (m : String)
  | exc (m : String)

/-- `str(e)` of an exception: its message. -/
def ApiExc.msg : ApiExc → String
  | .api m => m
  | .auth m => m
  | .exc m => m

/-- An HTTP response as observed by the client: `response.status`,
`await response.text()`, and the result of `await response.json()`
(`none` when parsing raises). -/
structure HttpResp where
  status : Nat
  body : String
  json : Option Json

/-- A transport interaction: `Except.error m` is an `aiohttp.ClientError`
with message `m`, `Except.ok r` a delivered response. -/
abbrev Transport := Except String HttpResp

/-- The structured status dict built by `get_lock_status`
(api.py lines 361-383). -/
structure LockStatus where
  uuid : Json
  model : Json
  is_locked : Bool
  is_unlocked : Bool
  raw_lock_state : Json
  online : Bool
  battery : Json
  wifi_strength : Json
  ble_strength : Json
  net_strength : Json
  version : Json
  is_jam : Bool
  sleep : Bool
  timestamp : Json
  lasttime : Json

/-- Parsing of the `data` payload of a successful lock-status response,
as in api.py lines 361-383: raw lock state `2` means locked, `1` means
unlocked, anything else leaves both flags `false`. -/
def parseLockStatus (status_data : Json) : LockStatus :=
  let is_locked_value := status_data.getD "is_locked" (.num 0)
  { uuid := status_data.getD "uuid" .null
    model := status_data.getD "model" .null
    is_locked := is_locked_value.beqNum 2
    is_unlocked := is_locked_value.beqNum 1
    raw_lock_state := is_locked_value
    online := pyTruthy (status_data.getD "online" (.num 0))
    battery := status_data.getD "battery" (.num 0)
    wifi_strength := status_data.getD "wifi_strength" (.num 0)
    ble_strength := status_data.getD "ble_strength" (.num 0)
    net_strength := status_data.getD "net_strength" (.num 0)
    version := status_data.getD "version" (.str "")
    is_jam := pyTruthy (status_data.getD "is_jam" (.num 0))
    sleep := pyTruthy (status_data.getD "sleep" (.num 0))
    timestamp := status_data.getD "timestamp" (.num 0)
    lasttime := status_data.getD "lasttime" (.num 0) }

/-- The online-check result dict built by `check_lock_online`
(api.py lines 430-440). -/
structure OnlineStatus where
  ble_online : Bool
  remote_online : Bool
  is_online : Bool
  raw_data : Json

/-- Parsing of the `data` payload of a successful online-check response
(api.py lines 431-440): `is_online` is the conjunction of the BLE and
remote flags. -/
def parseOnline (data : Json) : OnlineStatus :=
  let ble_online := (data.getD "ble" (.num 0)).beqNum 1
  let remote_online := (data.getD "remote" (.num 0)).beqNum 1
  { ble_online := ble_online
    remote_online := remote_online
    is_online := ble_online && remote_online
    raw_data := data }

/-- Outcome of the pre-flight section of `_send_lock_command`
(api.py lines 470-483): either the command code continues to the POST
(`warned` records whether the "proceeding anyway" warning was logged),
or an exception aborts the command before anything is sent. -/
inductive PreflightResult where
  | proceed (warned : Bool)
  | abort (e : ApiExc)

/-- The pre-flight online check of `_send_lock_command`
(api.py lines 470-483), as a function of the outcome of
`check_lock_online`.  A successful check reporting the lock offline
raises `UltraloqApiError("Lock is not online (BLE: ..., Remote: ...)")`;
the `except UltraloqApiError: raise` clause re-raises that error and any
`UltraloqApiError` coming out of `check_lock_online` itself, so those
abort the command; only a non-`UltraloqApiError` exception falls to the
`except Exception` clause that logs "proceeding anyway". -/
def preflightOnlineCheck (onlineResult : Except ApiExc OnlineStatus) : PreflightResult :=
  match onlineResult with
  | .ok st =>
    if !st.is_online then
      .abort (.api ("Lock is not online (BLE: " ++ pyBoolStr st.ble_online ++
        ", Remote: " ++ pyBoolStr st.remote_online ++ ")"))
    else
      .proceed false
  | .error e =>
    match e with
    | .api m => .abort (.api m)
    | .auth m => .abort (.auth m)
    | .exc _ => .proceed true

/-- The post-command verification block of `_send_lock_command`
(api.py lines 553-581), as a function of the outcome of the
`get_lock_status` re-query: on a snapshot, the freshly observed
`is_locked` flag is compared with the expected outcome of the action
(`LOCK` expects locked); a mismatch raises
`UltraloqApiError("<action> command failed - expected ..., got ...")`.
The `except UltraloqApiError: raise` clause re-raises that error and any
`UltraloqApiError` from the status query; any other exception from the
status query hits `except Exception` and the command still returns
`True`. -/
def verifyAfterCommand (action : String)
    (statusResult : Except ApiExc LockStatus) : Except ApiExc Bool :=
  match statusResult with
  | .ok current_status =>
    let expected_locked := action == "LOCK"
    let actual_locked := current_status.is_locked
    if actual_locked == expected_locked then
      .ok true
    else
      let expected_state := if expected_locked then "LOCKED" else "UNLOCKED"
      let actual_state := if actual_locked then "LOCKED" else "UNLOCKED"
      .error (.api (action ++ " command failed - expected " ++ expected_state ++
        ", got " ++ actual_state))
  | .error e =>
    match e with
    | .api m => .error (.api m)
    | .auth m => .error (.auth m)
    | .exc _ => .ok true

/-- The HTTP-200 branch of the command POST in `_send_lock_command`
(api.py lines 535-587).  `parsed` is the result of `response.json()`
(`none` when it raises) and `statusResult` the outcome of the
post-command `get_lock_status` query.  The whole block from
`result = await response.json()` through the verification sits inside
`try: ... except Exception as json_err:` (lines 540 and 585), so every
exception raised in it — including the state-verification error
re-raised by the inner handler and the non-200 application-code error —
is caught there and replaced by
`UltraloqApiError("Invalid <action> response format: <body[:100]>")`. -/
def sendCommandResponse200 (action : String) (responseText : String)
    (parsed : Option Json) (statusResult : Except ApiExc LockStatus) :
    Except ApiExc Bool :=
  let inner : Except ApiExc Bool :=
    match parsed with
    | none => .error (.exc "json decode error")
    | some result =>
      if (result.getD "code" .null).beqNum 200 then
        verifyAfterCommand action statusResult
      else
        .error (.api (action ++ " failed: " ++ descriptionOf result))
  match inner with
  | .ok b => .ok b
  | .error _ =>
    .error (.api ("Invalid " ++ action ++ " response format: " ++ responseText.take 100))

/-- The mutable authentication fields of `UltraloqApiClient`
(api.py lines 41-46). -/
structure ClientState where
  api_token : Option String
  api_base_url : Option String
  access_token : Option String

/-- A freshly constructed client. -/
def initState : ClientState :=
  { api_token := none, api_base_url := none, access_token := none }

/-- `is_authenticated` (api.py lines 597-600). -/
def is_authenticated (s : ClientState) : Bool :=
  s.access_token.isSome

/-- Extracting an optional string field from a JSON value
(`token_data.get("token")` and the base URL); the vendor delivers these
as strings, so non-string values are treated as absent. -/
def asStrOpt : Json → Option String
  | .str s => some s
  | _ => none

/-- `_get_api_token` (api.py lines 56-129): on HTTP 200 with application
code 200 the token and base URL are stored on the client (lines 109-111)
before the truthiness check at line 113; any failure raises
`UltraloqApiError`.  Returns the result together with the updated client
state. -/
def getApiToken (s : ClientState) (resp : Transport) :
    Except ApiExc String × ClientState :=
  match resp with
  | .error m => (.error (.api ("Network error: " ++ m)), s)
  | .ok r =>
    if r.status == 200 then
      match r.json with
      | none => (.error (.api ("Invalid token response format: " ++ r.body.take 100)), s)
      | some result =>
        if (result.getD "code" .null).beqNum 200 then
          let token_data := result.getD "data" (.obj [])
          let tok := asStrOpt (token_data.getD "token" .null)
          let urls := token_data.getD "urls" (.obj [])
          let base := asStrOpt (urls.getD "utec" .null)
          let s1 := { s with api_token := tok, api_base_url := base }
          if pyTruthyStr tok && pyTruthyStr base then
            (.ok (tok.getD ""), s1)
          else
            (.error (.api "Invalid token response"), s1)
        else
          (.error (.api ("Token request failed: " ++ pyFormat (result.getD "code" .null))), s)
    else
      (.error (.api ("Token request failed with status " ++ toString r.status)), s)

/-- `authenticate` (api.py lines 131-217).  Step 1 acquires the API
token (failures propagate unchanged); step 2 posts the credentials.
On HTTP 200 the response handling sits inside
`try: ... except Exception as json_err:` (lines 188 and 207):
application code 200 stores the API token as the access token and
returns `True`; code 401 raises `UltraloqAuthError("Invalid email or
password")`, which that same handler catches and replaces with
`UltraloqAuthError("Invalid login response format: ...")`; any other
code only logs, so control falls off the end of the function and
`authenticate` returns Python `None` — modelled as `.ok none`
(`.ok (some true)` is `return True`). -/
def authenticate (s : ClientState) (tokenResp loginResp : Transport) :
    Except ApiExc (Option Bool) × ClientState :=
  match getApiToken s tokenResp with
  | (.error e, s1) => (.error e, s1)
  | (.ok _, s1) =>
    if !(pyTruthyStr s1.api_token && pyTruthyStr s1.api_base_url) then
      (.error (.api "Failed to obtain API token"), s1)
    else
      match loginResp with
      | .error m => (.error (.api ("Network error: " ++ m)), s1)
      | .ok r =>
        if r.status == 200 then
          let inner : Except ApiExc (Option Bool) × ClientState :=
            match r.json with
            | none => (.error (.exc "json decode error"), s1)
            | some result =>
              if (result.getD "code" .null).beqNum 200 then
                (.ok (some true), { s1 with access_token := s1.api_token })
              else if (result.getD "code" .null).beqNum 401 then
                (.error (.auth "Invalid email or password"), s1)
              else
                (.ok none, s1)
          match inner with
          | (.ok v, s2) => (.ok v, s2)
          | (.error _, s2) =>
            (.error (.auth ("Invalid login response format: " ++ r.body.take 100)), s2)
        else
          (.error (.auth ("Login request failed with status " ++ toString r.status)), s1)

/-- `get_addresses` (api.py lines 219-252).  The second component counts
transport calls: the guard at lines 221-222 raises before any network
access.  A body that fails to parse escapes as a bare decode error; a
transport-level failure is wrapped as `UltraloqApiError("Network error:
...")`. -/
def get_addresses (s : ClientState) (resp : Transport) :
    Except ApiExc Json × Nat :=
  if !pyTruthyStr s.api_token then
    (.error (.auth "Not authenticated - no API token"), 0)
  else
    match resp with
    | .error m => (.error (.api ("Network error: " ++ m)), 1)
    | .ok r =>
      if r.status == 200 then
        match r.json with
        | none => (.error (.exc "json decode error"), 1)
        | some result =>
          if (result.getD "code" .null).beqNum 200 then
            (.ok (result.getD "data" (.arr [])), 1)
          else
            (.error (.api ("Address request failed: " ++ descriptionOf result)), 1)
      else
        (.error (.api ("Address request failed with status " ++ toString r.status)), 1)

/-- `get_devices` (api.py lines 254-285): same shape as `get_addresses`
with the device-list endpoint's messages. -/
def get_devices (s : ClientState) (resp : Transport) :
    Except ApiExc Json × Nat :=
  if !pyTruthyStr s.api_token then
    (.error (.auth "Not authenticated - no API token"), 0)
  else
    match resp with
    | .error m => (.error (.api ("Network error: " ++ m)), 1)
    | .ok r =>
      if r.status == 200 then
        match r.json with
        | none => (.error (.exc "json decode error"), 1)
        | some result =>
          if (result.getD "code" .null).beqNum 200 then
            (.ok (result.getD "data" (.arr [])), 1)
          else
            (.error (.api ("Device list request failed: " ++ descriptionOf result)), 1)
      else
        (.error (.api ("Device list request failed with status " ++ toString r.status)), 1)

/-- `get_lock_status` (api.py lines 338-393): guard, one POST, and on a
code-200 envelope the structured snapshot of `parseLockStatus`. -/
def get_lock_status (s : ClientState) (resp : Transport) :
    Except ApiExc LockStatus × Nat :=
  if !pyTruthyStr s.api_token then
    (.error (.auth "Not authenticated - no API token"), 0)
  else
    match resp with
    | .error m => (.error (.api ("Network error: " ++ m)), 1)
    | .ok r =>
      if r.status == 200 then
        match r.json with
        | none => (.error (.exc "json decode error"), 1)
        | some result =>
          if (result.getD "code" .null).beqNum 200 then
            (.ok (parseLockStatus (result.getD "data" (.obj []))), 1)
          else
            (.error (.api ("Lock status request failed: " ++ descriptionOf result)), 1)
      else
        (.error (.api ("Lock status request failed with status " ++ toString r.status)), 1)

/-- `check_lock_online` (api.py lines 395-454).  The parse and the
code check sit inside `try: ... except Exception as json_err:` (lines
426 and 444), so a decode failure and the non-200 application-code error
are both replaced by `UltraloqApiError("Invalid online check response
format: ...")`: every failure of this method surfaces as an
`UltraloqApiError`. -/
def check_lock_online (s : ClientState) (resp : Transport) :
    Except ApiExc OnlineStatus × Nat :=
  if !pyTruthyStr s.api_token then
    (.error (.auth "Not authenticated - no API token"), 0)
  else
    match resp with
    | .error m => (.error (.api ("Network error: " ++ m)), 1)
    | .ok r =>
      if r.status == 200 then
        let inner : Except ApiExc OnlineStatus :=
          match r.json with
          | none => .error (.exc "json decode error")
          | some result =>
            if (result.getD "code" .null).beqNum 200 then
              .ok (parseOnline (result.getD "data" (.obj [])))
            else
              .error (.api ("Check lock online failed: " ++ descriptionOf result))
        match inner with
        | .ok v => (.ok v, 1)
        | .error _ =>
          (.error (.api ("Invalid online check response format: " ++ r.body.take 100)), 1)
      else
        (.error (.api ("Check lock online request failed with status " ++ toString r.status)), 1)

/-- `for x in v:` over a JSON value that the code expects to be a list.
(On a non-list the Python loop would raise; the claims quantify over
list-shaped vendor data.) -/
def asListOf : Json → List Json
  | .arr xs => xs
  | _ => []

/-- Inner loop of `get_device_user_uid` over one entry's devices
(api.py lines 327-334): `some` reports that a device with the target
uuid was found (and whether its user uid was present), ending the whole
search; `none` moves on to the next entry. -/
def findUserUidIn (uuid : String) : List Json → Option (Except ApiExc Json)
  | [] => none
  | device :: rest =>
    if (device.getD "uuid" .null).beqStr uuid then
      match (device.getD "user" (.obj [])).getD "uid" .null with
      | .null => some (.error (.api ("No user UID found for device " ++ uuid)))
      | v => some (.ok v)
    else
      findUserUidIn uuid rest

/-- The search loop of `get_device_user_uid` (api.py lines 324-336):
the first device whose `uuid` matches decides the outcome — a present,
non-`None` user uid is returned, a missing one raises. -/
def findUserUid (uuid : String) : List Json → Except ApiExc Json
  | [] => .error (.api ("Device " ++ uuid ++ " not found"))
  | entry :: rest =>
    match findUserUidIn uuid (asListOf (entry.getD "devices" (.arr []))) with
    | some r => r
    | none => findUserUid uuid rest

/-- The transport interactions a lock/unlock command can perform, in
order: the online pre-flight, the device-list query used to resolve the
user uid, the command POST itself, and the post-command status query. -/
structure CommandEnv where
  onlineResp : Transport
  deviceListResp : Transport
  commandResp : Transport
  statusResp : Transport

/-- `_send_lock_command` (api.py lines 465-595), composed from the
embedded sub-calls.  Steps: the authentication guard (lines 467-468);
the pre-flight online check (470-483); user-uid resolution via
`get_device_user_uid`, whose failures are re-wrapped as
`UltraloqApiError("Could not get user UID for device: ...")`
(497-502); the command POST (527-595), whose HTTP-200 branch is
`sendCommandResponse200`.  The second component counts transport calls;
the post-command status query is only issued when the command envelope
parsed with application code 200 (the `statusIssued` flag), and in the
other branches its supplied outcome is ignored by
`sendCommandResponse200`.  The fixed `asyncio.sleep(2)` settle delay and
the epoch timestamp in the payload have no observable effect here and
are not modelled. -/
def send_lock_command (s : ClientState) (uuid : String) (action : String)
    (env : CommandEnv) : Except ApiExc Bool × Nat :=
  if !pyTruthyStr s.api_token then
    (.error (.auth "Not authenticated - no API token"), 0)
  else
    let (onlineRes, c1) := check_lock_online s env.onlineResp
    match preflightOnlineCheck onlineRes with
    | .abort e => (.error e, c1)
    | .proceed _ =>
      let (devRes, c2) := get_devices s env.deviceListResp
      let uidRes : Except ApiExc Json :=
        match devRes with
        | .error e => .error (.api ("Could not get user UID for device: " ++ e.msg))
        | .ok dd =>
          match findUserUid uuid (asListOf dd) with
          | .error e => .error (.api ("Could not get user UID for device: " ++ e.msg))
          | .ok v => .ok v
      match uidRes with
      | .error e => (.error e, c1 + c2)
      | .ok _ =>
        match env.commandResp with
        | .error m => (.error (.api ("Network error: " ++ m)), c1 + c2 + 1)
        | .ok r =>
          if r.status == 200 then
            let statusIssued : Bool :=
              match r.json with
              | some result => (result.getD "code" .null).beqNum 200
              | none => false
            let (statusRes, c3) :=
              if statusIssued then get_lock_status s env.statusResp
              else (.error (.exc "status query not issued"), 0)
            (sendCommandResponse200 action r.body r.json statusRes, c1 + c2 + 1 + c3)
          else
            (.error (.api (action ++ " request failed with status " ++ toString r.status)),
              c1 + c2 + 1)

/-- `lock` (api.py lines 457-459). -/
def lock (s : ClientState) (uuid : String) (env : CommandEnv) :
    Except ApiExc Bool × Nat :=
  send_lock_command s uuid "LOCK" env

/-- `unlock` (api.py lines 461-463). -/
def unlock (s : ClientState) (uuid : String) (env : CommandEnv) :
    Except ApiExc Bool × Nat :=
  send_lock_command s uuid "UNLOCK" env

/-- One entry of the lock list built by `get_locks`
(api.py lines 305-315).  Every field is the corresponding `.get`;
`user_uid` is `user_data.get("uid")`, which is `None` (`Json.null`) when
the nested user data is missing. -/
structure LockInfo where
  uuid : Json
  name : Json
  model : Json
  status : Json
  params : Json
  bridge : Json
  user : Json
  user_uid : Json
  entry_id : Json

/-- The lock-info dict appended for a matching device
(api.py lines 303-315). -/
def mkLockInfo (entry device : Json) : LockInfo :=
  let user_data := device.getD "user" (.obj [])
  { uuid := device.getD "uuid" .null
    name := device.getD "name" .null
    model := device.getD "model" .null
    status := device.getD "status" .null
    params := device.getD "params" (.obj [])
    bridge := device.getD "bridge" (.obj [])
    user := user_data
    user_uid := user_data.getD "uid" .null
    entry_id := entry.getD "id" .null }

/-- The flatten-and-filter loop of `get_locks` (api.py lines 291-318):
for every entry, every device whose `model` equals `"U-Bolt"` is turned
into a `LockInfo` and appended, in order. -/
def getLocks : List Json → List LockInfo
  | [] => []
  | entry :: rest =>
    ((asListOf (entry.getD "devices" (.arr []))).filterMap fun device =>
      if (device.getD "model" (.str "")).beqStr "U-Bolt" then
        some (mkLockInfo entry device)
      else
        none) ++ getLocks rest

/-- The per-device accumulation loop of the coordinator's
`_async_update_data` (coordinator.py lines 61-69), processing the
`(uuid, result)` pairs delivered by `asyncio.gather(...,
return_exceptions=True)`.  `prev` is `self.data`.  For an exception
result the code runs `if uuid in self.data:` — when `self.data` is
`None` (no refresh has succeeded yet) this raises
`TypeError("argument of type NoneType is not iterable")`, which escapes
the loop; when it is a mapping, a cached snapshot is carried over and a
device without one is simply omitted. -/
def processResults (prev : Option (List (String × LockStatus))) :
    List (String × Except ApiExc LockStatus) →
    Except String (List (String × LockStatus))
  | [] => .ok []
  | (u, r) :: rest =>
    match r with
    | .ok st => (processResults prev rest).map fun L => (u, st) :: L
    | .error _ =>
      match prev with
      | none => .error "argument of type NoneType is not iterable"
      | some m =>
        match m.lookup u with
        | some st => (processResults prev rest).map fun L => (u, st) :: L
        | none => processResults prev rest

/-- `_async_update_data` (coordinator.py lines 40-77) for a refresh
cycle over an already known uuid list, each uuid's status-query outcome
given by `results`.  An escaping exception is converted by the handlers
at lines 73-77: the `TypeError` of the first-cycle case is not an
`UltraloqApiError`, so it becomes
`UpdateFailed("Unexpected error: ...")`. -/
def asyncUpdateData (uuids : List String)
    (results : String → Except ApiExc LockStatus)
    (prev : Option (List (String × LockStatus))) :
    Except String (List (String × LockStatus)) :=
  match processResults prev (uuids.map fun u => (u, results u)) with
  | .ok L => .ok L
  | .error m => .error ("Unexpected error: " ++ m)

/-- Concrete instance for `refresh_tolerates_per_device_failures`:
three uuids, the middle one failing with a cached prior snapshot. -/
def resultsW : String → Except ApiExc LockStatus := fun u =>
  if u == "b" then .error (.api "status query failed")
  else .ok (parseLockStatus (.obj [("is_locked", .num 2)]))

end Ultraloq

set_option maxRecDepth 10000

namespace Ultraloq

theorem beqNum_two_and_one (j : Json) : (j.beqNum 2 && j.beqNum 1) = false := by
  cases j <;> simp [Json.beqNum]
  · rename_i b
    cases b <;> decide
  · rename_i n
    intro h
    omega

/-- Claim C5: for every successful lock-status response, raw value 2
yields `is_locked = true, is_unlocked = false`; raw value 1 yields
`is_locked = false, is_unlocked = true`; any other raw numeric value
yields both flags false; and on any response shape whatsoever the two
flags are never both true. -/
theorem lockStatus_flags_from_raw :
    (∀ (v : Int) (rest : List (String × Json)),
      (parseLockStatus (.obj (("is_locked", .num v) :: rest))).is_locked = (v == 2) ∧
      (parseLockStatus (.obj (("is_locked", .num v) :: rest))).is_unlocked = (v == 1)) ∧
    (∀ status_data : Json,
      ((parseLockStatus status_data).is_locked && (parseLockStatus status_data).is_unlocked)
        = false) := by
  constructor
  · intro v rest
    constructor <;> rfl
  · intro status_data
    exact beqNum_two_and_one _

end Ultraloq

namespace Ultraloq

theorem parseLockStatus_is_locked_false (v : Int) (rest : List (String × Json))
    (h2 : v ≠ 2) :
    (parseLockStatus (.obj (("is_locked", .num v) :: rest))).is_locked = false := by
  have : ((v : Int) == 2) = false := beq_eq_false_iff_ne.mpr h2
  simp [parseLockStatus, Json.getD, Json.lookup, List.lookup, Json.beqNum, this]

theorem verify_unlock_of_not_locked (st : LockStatus) (h : st.is_locked = false) :
    verifyAfterCommand "UNLOCK" (.ok st) = .ok true := by
  cases st
  simp only [LockStatus.is_locked] at h
  subst h
  rfl

theorem verify_lock_of_not_locked (st : LockStatus) (h : st.is_locked = false) :
    verifyAfterCommand "LOCK" (.ok st) =
      .error (.api "LOCK command failed - expected LOCKED, got UNLOCKED") := by
  cases st
  simp only [LockStatus.is_locked] at h
  subst h
  rfl

/-- Claim C1 (code bug): on a state mismatch after an accepted command,
the code builds and raises exactly the state-verification error naming
both states — `verifyAfterCommand` below yields
`"LOCK command failed - expected LOCKED, got UNLOCKED"`, and the inner
`except UltraloqApiError: raise` clause (with its comment "Re-raise API
errors (including our state verification error)") re-raises it — but the
enclosing `except Exception as json_err` handler of the response-parse
`try` block (api.py lines 540/585) catches that very error and replaces
it, so the exception that actually escapes `_send_lock_command` carries
the message `"Invalid LOCK response format: <command response body>"`,
which names neither the expected nor the actual state. -/
theorem lock_mismatch_error_is_rewrapped :
    verifyAfterCommand "LOCK"
        (.ok (parseLockStatus (.obj [("is_locked", .num 1)])))
      = .error (.api "LOCK command failed - expected LOCKED, got UNLOCKED") ∧
    sendCommandResponse200 "LOCK" "cmd-resp-body"
        (some (.obj [("code", .num 200)]))
        (.ok (parseLockStatus (.obj [("is_locked", .num 1)])))
      = .error (.api "Invalid LOCK response format: cmd-resp-body") :=
  ⟨rfl, rfl⟩

/-- Claim C2 (counterexample): a post-command status query failing with
`UltraloqApiError("Network error: ...")` does not lead to overall
success — the command fails with the re-wrapped invalid-response-format
error. -/
theorem status_api_failure_fails_command :
    sendCommandResponse200 "LOCK" "cmd-ok-body"
        (some (.obj [("code", .num 200)]))
        (.error (.api "Network error: boom"))
      = .error (.api "Invalid LOCK response format: cmd-ok-body") :=
  rfl

/-- Claim C2 (amended): after the vendor accepts the command
(application code 200), the command still returns success only when the
post-command status query fails with an exception that is not an
`UltraloqApiError` (e.g. a bare JSON decode error); a status-query
failure raised as `UltraloqApiError` — which is how `get_lock_status`
surfaces network errors and non-200 application codes — is re-raised by
the inner handler and the command fails with the re-wrapped
invalid-response-format error. -/
theorem status_failure_dichotomy (action body : String) (result : Json)
    (hcode : (result.getD "code" .null).beqNum 200 = true) :
    (∀ m, sendCommandResponse200 action body (some result) (.error (.exc m)) = .ok true) ∧
    (∀ m, sendCommandResponse200 action body (some result) (.error (.api m)) =
      .error (.api ("Invalid " ++ action ++ " response format: " ++ body.take 100))) := by
  constructor <;> intro m <;> simp [sendCommandResponse200, verifyAfterCommand, hcode]

theorem status_failure_dichotomy_witness :
    ((.obj [("code", .num 200)] : Json).getD "code" .null).beqNum 200 = true ∧
    sendCommandResponse200 "UNLOCK" "cmd-ok-body"
        (some (.obj [("code", .num 200)])) (.error (.exc "json decode error"))
      = .ok true :=
  ⟨rfl, (status_failure_dichotomy "UNLOCK" "cmd-ok-body" (.obj [("code", .num 200)]) rfl).1
    "json decode error"⟩

/-- Claim C3 (counterexample): with the lock reported offline by a
successful online check, `_send_lock_command` aborts with
`UltraloqApiError("Lock is not online ...")` after a single transport
call — the online check itself — so the command request is never sent to
the vendor. -/
theorem offline_report_aborts_command :
    send_lock_command ⟨some "T1", some "https://X", some "T1"⟩ "u1" "LOCK"
        ⟨.ok ⟨200, "online-body", some (.obj [("code", .num 200),
            ("data", .obj [("ble", .num 0), ("remote", .num 0)])])⟩,
          .error "unused", .error "unused", .error "unused"⟩
      = (.error (.api "Lock is not online (BLE: False, Remote: False)"), 1) :=
  rfl

/-- Claim C3 (amended): the pre-flight online check is not purely
advisory.  A completed check reporting the lock offline raises an
`UltraloqApiError` that the `except UltraloqApiError: raise` clause
re-raises, aborting the command; a check failing with an
`UltraloqApiError` — which is every failure mode `check_lock_online` can
produce — likewise aborts.  Only a non-`UltraloqApiError` exception is
downgraded to the "proceeding anyway" warning. -/
theorem preflight_gating (onlineResult : Except ApiExc OnlineStatus) :
    (∀ st : OnlineStatus, onlineResult = .ok st → st.is_online = false →
      preflightOnlineCheck onlineResult =
        .abort (.api ("Lock is not online (BLE: " ++ pyBoolStr st.ble_online ++
          ", Remote: " ++ pyBoolStr st.remote_online ++ ")"))) ∧
    (∀ m, onlineResult = .error (.api m) →
      preflightOnlineCheck onlineResult = .abort (.api m)) ∧
    (∀ m, onlineResult = .error (.exc m) →
      preflightOnlineCheck onlineResult = .proceed true) := by
  refine ⟨?_, ?_, ?_⟩
  · rintro st rfl h
    simp [preflightOnlineCheck, h]
  · rintro m rfl
    rfl
  · rintro m rfl
    rfl

theorem preflight_gating_witness :
    preflightOnlineCheck (.ok ⟨false, true, false, .null⟩)
      = .abort (.api "Lock is not online (BLE: False, Remote: True)") :=
  (preflight_gating (.ok ⟨false, true, false, .null⟩)).1 ⟨false, true, false, .null⟩ rfl rfl

/-- Claim C9: the post-command verification compares only the
`is_locked` flag, so when the post-command status carries a raw lock
state outside `{1, 2}` (both flags false), an `UNLOCK` command passes
verification and returns success, while a `LOCK` command fails
verification — the verification step produces the mismatch error naming
`LOCKED`/`UNLOCKED`, and the command as a whole fails (with the
re-wrapped message of the enclosing parse handler). -/
theorem unknown_state_verification_asymmetry (v : Int) (rest : List (String × Json))
    (_h1 : v ≠ 1) (h2 : v ≠ 2) (body : String) (result : Json)
    (hcode : (result.getD "code" .null).beqNum 200 = true) :
    verifyAfterCommand "UNLOCK"
        (.ok (parseLockStatus (.obj (("is_locked", .num v) :: rest)))) = .ok true ∧
    verifyAfterCommand "LOCK"
        (.ok (parseLockStatus (.obj (("is_locked", .num v) :: rest)))) =
      .error (.api "LOCK command failed - expected LOCKED, got UNLOCKED") ∧
    sendCommandResponse200 "UNLOCK" body (some result)
        (.ok (parseLockStatus (.obj (("is_locked", .num v) :: rest)))) = .ok true ∧
    sendCommandResponse200 "LOCK" body (some result)
        (.ok (parseLockStatus (.obj (("is_locked", .num v) :: rest)))) =
      .error (.api ("Invalid LOCK response format: " ++ body.take 100)) := by
  have hlock := parseLockStatus_is_locked_false v rest h2
  have hu := verify_unlock_of_not_locked _ hlock
  have hl := verify_lock_of_not_locked _ hlock
  refine ⟨hu, hl, ?_, ?_⟩
  · simp [sendCommandResponse200, hcode, hu]
  · simp [sendCommandResponse200, hcode, hl]

theorem unknown_state_witness :
    (3 : Int) ≠ 1 ∧ (3 : Int) ≠ 2 ∧
    verifyAfterCommand "UNLOCK"
        (.ok (parseLockStatus (.obj [("is_locked", .num 3)]))) = .ok true ∧
    verifyAfterCommand "LOCK"
        (.ok (parseLockStatus (.obj [("is_locked", .num 3)]))) =
      .error (.api "LOCK command failed - expected LOCKED, got UNLOCKED") :=
  ⟨by decide, by decide,
    (unknown_state_verification_asymmetry 3 [] (by decide) (by decide) "b"
      (.obj [("code", .num 200)]) rfl).1,
    (unknown_state_verification_asymmetry 3 [] (by decide) (by decide) "b"
      (.obj [("code", .num 200)]) rfl).2.1⟩

end Ultraloq

namespace Ultraloq

/-- Claim C4 (counterexample): the data/command methods guard on the
presence of the API token, which is already stored by a token step that
succeeded even when the login step then failed.  Here `authenticate`
fails (login answers application code 401, so an `UltraloqAuthError` is
raised and `is_authenticated` stays false), yet a subsequent
`get_addresses` on the resulting client state passes the guard and
performs one transport call instead of failing with an authentication
error. -/
theorem failed_login_leaves_token_usable :
    authenticate initState
        (.ok ⟨200, "token-body", some (.obj [("code", .num 200),
          ("data", .obj [("token", .str "T1"),
            ("urls", .obj [("utec", .str "https://X")])])])⟩)
        (.ok ⟨200, "bad-login-body", some (.obj [("code", .num 401)])⟩)
      = (.error (.auth "Invalid login response format: bad-login-body"),
          ⟨some "T1", some "https://X", none⟩) ∧
    is_authenticated ⟨some "T1", some "https://X", none⟩ = false ∧
    get_addresses ⟨some "T1", some "https://X", none⟩
        (.ok ⟨200, "addr-body", some (.obj [("code", .num 200), ("data", .arr [])])⟩)
      = (.ok (.arr []), 1) :=
  ⟨rfl, rfl, rfl⟩

/-- Claim C4 (amended): each data/command method fails immediately with
`UltraloqAuthError("Not authenticated - no API token")` and performs
zero transport calls exactly when the client's stored API token is unset
(falsy) — in particular on a fresh client on which `authenticate` was
never called.  The guard checks the token field, not completed
authentication: after a failed `authenticate` whose token step
succeeded, the token is set and the methods proceed to network I/O (see
the counterexample). -/
theorem methods_guard_on_api_token (s : ClientState)
    (h : pyTruthyStr s.api_token = false) :
    (∀ r, get_addresses s r = (.error (.auth "Not authenticated - no API token"), 0)) ∧
    (∀ r, get_devices s r = (.error (.auth "Not authenticated - no API token"), 0)) ∧
    (∀ r, get_lock_status s r = (.error (.auth "Not authenticated - no API token"), 0)) ∧
    (∀ r, check_lock_online s r = (.error (.auth "Not authenticated - no API token"), 0)) ∧
    (∀ u env, lock s u env = (.error (.auth "Not authenticated - no API token"), 0)) ∧
    (∀ u env, unlock s u env = (.error (.auth "Not authenticated - no API token"), 0)) := by
  refine ⟨fun r => ?_, fun r => ?_, fun r => ?_, fun r => ?_,
    fun u env => ?_, fun u env => ?_⟩ <;>
    simp [get_addresses, get_devices, get_lock_status, check_lock_online,
      lock, unlock, send_lock_command, h]

theorem methods_guard_witness :
    pyTruthyStr initState.api_token = false ∧
    get_addresses initState (.error "connection refused")
      = (.error (.auth "Not authenticated - no API token"), 0) ∧
    lock initState "u1" ⟨.error "a", .error "b", .error "c", .error "d"⟩
      = (.error (.auth "Not authenticated - no API token"), 0) :=
  ⟨rfl, (methods_guard_on_api_token initState rfl).1 _,
    (methods_guard_on_api_token initState rfl).2.2.2.2.1 "u1" _⟩

/-- Claim C6 (counterexample): a login response with HTTP status 200 and
application code 500 does not raise a generic API error — `authenticate`
only logs, falls off the end of the function, and returns Python `None`
(here `.ok none`): no exception at all. -/
theorem login_unknown_code_returns_none :
    authenticate initState
        (.ok ⟨200, "token-body", some (.obj [("code", .num 200),
          ("data", .obj [("token", .str "T1"),
            ("urls", .obj [("utec", .str "https://X")])])])⟩)
        (.ok ⟨200, "login-500-body", some (.obj [("code", .num 500)])⟩)
      = (.ok none, ⟨some "T1", some "https://X", none⟩) :=
  rfl

/-- Claim C6 (amended): for a login response with HTTP status 200,
`authenticate` dispatches on the application code as follows: code 200
succeeds (returns `True`) and the API token becomes the standing access
token; code 401 raises an authentication error (`UltraloqAuthError`,
distinct from the generic `UltraloqApiError` — though the surrounding
parse handler replaces its message with "Invalid login response format:
..."); any other application code raises nothing: the failure is only
logged and `authenticate` returns `None`. -/
theorem authenticate_code_dispatch (tokenResp : Transport) (tok base : String)
    (htok : getApiToken initState tokenResp = (.ok tok, ⟨some tok, some base, none⟩))
    (ht : tok ≠ "") (hb : base ≠ "")
    (c : Int) (rest : List (String × Json)) (body : String) :
    (c = 200 →
      authenticate initState tokenResp
          (.ok ⟨200, body, some (.obj (("code", .num c) :: rest))⟩)
        = (.ok (some true), ⟨some tok, some base, some tok⟩)) ∧
    (c = 401 →
      authenticate initState tokenResp
          (.ok ⟨200, body, some (.obj (("code", .num c) :: rest))⟩)
        = (.error (.auth ("Invalid login response format: " ++ body.take 100)),
            ⟨some tok, some base, none⟩)) ∧
    (c ≠ 200 → c ≠ 401 →
      authenticate initState tokenResp
          (.ok ⟨200, body, some (.obj (("code", .num c) :: rest))⟩)
        = (.ok none, ⟨some tok, some base, none⟩)) := by
  have hT : pyTruthyStr (some tok) = true := by simp [pyTruthyStr, ht]
  have hB : pyTruthyStr (some base) = true := by simp [pyTruthyStr, hb]
  refine ⟨?_, ?_, ?_⟩
  · rintro rfl
    simp [authenticate, htok, hT, hB, Json.getD, Json.lookup, List.lookup, Json.beqNum]
  · rintro rfl
    simp [authenticate, htok, hT, hB, Json.getD, Json.lookup, List.lookup, Json.beqNum]
  · intro h1 h2
    have e1 : ((c : Int) == 200) = false := beq_eq_false_iff_ne.mpr h1
    have e2 : ((c : Int) == 401) = false := beq_eq_false_iff_ne.mpr h2
    simp [authenticate, htok, hT, hB, Json.getD, Json.lookup, List.lookup,
      Json.beqNum, e1, e2]

theorem authenticate_code_dispatch_witness :
    getApiToken initState
        (.ok ⟨200, "token-body-w", some (.obj [("code", .num 200),
          ("data", .obj [("token", .str "T1"),
            ("urls", .obj [("utec", .str "https://X")])])])⟩)
      = (.ok "T1", ⟨some "T1", some "https://X", none⟩) ∧
    authenticate initState
        (.ok ⟨200, "token-body-w", some (.obj [("code", .num 200),
          ("data", .obj [("token", .str "T1"),
            ("urls", .obj [("utec", .str "https://X")])])])⟩)
        (.ok ⟨200, "login-ok-body", some (.obj [("code", .num 200)])⟩)
      = (.ok (some true), ⟨some "T1", some "https://X", some "T1"⟩) :=
  ⟨rfl,
    (authenticate_code_dispatch
      (.ok ⟨200, "token-body-w", some (.obj [("code", .num 200),
        ("data", .obj [("token", .str "T1"),
          ("urls", .obj [("utec", .str "https://X")])])])⟩)
      "T1" "https://X" rfl
      (by decide) (by decide) 200 [] "login-ok-body").1 rfl⟩

end Ultraloq

namespace Ultraloq

theorem beqStr_eq (j : Json) (s : String) (h : j.beqStr s = true) : j = .str s := by
  cases j <;> simp [Json.beqStr] at h
  rename_i a
  exact congrArg Json.str h

theorem model_field_of_beq (device : Json)
    (h : (device.getD "model" (.str "")).beqStr "U-Bolt" = true) :
    device.getD "model" .null = .str "U-Bolt" := by
  unfold Json.getD at h ⊢
  cases hl : device.lookup "model" with
  | none =>
    rw [hl] at h
    exact absurd h (by decide)
  | some j =>
    rw [hl] at h
    exact beqStr_eq _ _ h

/-- Claim C7: `get_locks` flattens every entry's device list and keeps
exactly the devices whose `model` is `"U-Bolt"`: every returned lock has
model `"U-Bolt"`; every matching device of any entry contributes a lock
— in particular one with missing nested user data is still included —
and a device without user data gets `user_uid = None` rather than being
dropped. -/
theorem getLocks_filter_and_missing_user :
    (∀ (dd : List Json) (l : LockInfo), l ∈ getLocks dd → l.model = .str "U-Bolt") ∧
    (∀ (dd : List Json) (entry device : Json), entry ∈ dd →
      device ∈ asListOf (entry.getD "devices" (.arr [])) →
      (device.getD "model" (.str "")).beqStr "U-Bolt" = true →
      mkLockInfo entry device ∈ getLocks dd) ∧
    (∀ entry device : Json, device.lookup "user" = none →
      (mkLockInfo entry device).user_uid = .null) := by
  refine ⟨?_, ?_, ?_⟩
  · intro dd l hmem
    induction dd with
    | nil => cases hmem
    | cons entry rest ih =>
      rw [getLocks] at hmem
      rcases List.mem_append.mp hmem with hL | hR
      · rcases List.mem_filterMap.mp hL with ⟨device, _, hf⟩
        by_cases hb : (device.getD "model" (.str "")).beqStr "U-Bolt" = true
        · rw [if_pos hb] at hf
          cases hf
          simp [mkLockInfo, model_field_of_beq device hb]
        · rw [if_neg hb] at hf
          cases hf
      · exact ih hR
  · intro dd entry device he hd hb
    induction dd with
    | nil => cases he
    | cons e rest ih =>
      rw [getLocks]
      rcases List.mem_cons.mp he with rfl | htail
      · exact List.mem_append_left _
          (List.mem_filterMap.mpr ⟨device, hd, by rw [if_pos hb]⟩)
      · exact List.mem_append_right _ (ih htail)
  · intro entry device h
    show (Json.getD (device.getD "user" (.obj [])) "uid" .null) = .null
    unfold Json.getD
    rw [h]
    rfl

theorem getLocks_missing_user_witness :
    mkLockInfo (.obj [("devices", .arr [.obj [("model", .str "U-Bolt"),
          ("uuid", .str "u1")]]), ("id", .num 7)])
        (.obj [("model", .str "U-Bolt"), ("uuid", .str "u1")])
      ∈ getLocks [.obj [("devices", .arr [.obj [("model", .str "U-Bolt"),
          ("uuid", .str "u1")]]), ("id", .num 7)]] ∧
    (mkLockInfo (.obj [("devices", .arr [.obj [("model", .str "U-Bolt"),
          ("uuid", .str "u1")]]), ("id", .num 7)])
        (.obj [("model", .str "U-Bolt"), ("uuid", .str "u1")])).user_uid = .null :=
  ⟨getLocks_filter_and_missing_user.2.1
      [.obj [("devices", .arr [.obj [("model", .str "U-Bolt"),
        ("uuid", .str "u1")]]), ("id", .num 7)]]
      (.obj [("devices", .arr [.obj [("model", .str "U-Bolt"),
        ("uuid", .str "u1")]]), ("id", .num 7)])
      (.obj [("model", .str "U-Bolt"), ("uuid", .str "u1")])
      (List.mem_singleton.mpr rfl)
      (List.mem_singleton.mpr rfl)
      rfl,
    getLocks_filter_and_missing_user.2.2
      (.obj [("devices", .arr [.obj [("model", .str "U-Bolt"),
        ("uuid", .str "u1")]]), ("id", .num 7)])
      (.obj [("model", .str "U-Bolt"), ("uuid", .str "u1")])
      rfl⟩

end Ultraloq

namespace Ultraloq

theorem processResults_some_props (m : List (String × LockStatus))
    (results : String → Except ApiExc LockStatus) :
    ∀ uuids : List String, uuids.Nodup →
      ∃ L, processResults (some m) (uuids.map fun u => (u, results u)) = .ok L ∧
        (∀ u, u ∉ uuids → L.lookup u = none) ∧
        (∀ u, u ∈ uuids →
          (∀ st, results u = .ok st → L.lookup u = some st) ∧
          (∀ e, results u = .error e → L.lookup u = m.lookup u)) := by
  intro uuids hnd
  induction uuids with
  | nil =>
    exact ⟨[], rfl, fun u _ => rfl, fun u hu => absurd hu (List.not_mem_nil u)⟩
  | cons v rest ih =>
    obtain ⟨hv, hnd2⟩ := List.nodup_cons.mp hnd
    obtain ⟨L2, hL2, hnot2, hmem2⟩ := ih hnd2
    cases hr : results v with
    | ok st =>
      refine ⟨(v, st) :: L2, ?_, ?_, ?_⟩
      · simp [processResults, hr, hL2, Except.map]
      · intro u hu
        have h1 : u ≠ v := fun h => hu (h ▸ List.mem_cons_self v rest)
        have h2 : u ∉ rest := fun h => hu (List.mem_cons_of_mem _ h)
        have hb : (u == v) = false := beq_eq_false_iff_ne.mpr h1
        simp [List.lookup, hb, hnot2 u h2]
      · intro u hu
        rcases List.mem_cons.mp hu with rfl | hu2
        · refine ⟨fun st2 hst2 => ?_, fun e he => ?_⟩
          · rw [hr] at hst2
            cases hst2
            simp [List.lookup]
          · rw [hr] at he
            cases he
        · have h1 : u ≠ v := fun h => hv (h ▸ hu2)
          have hb : (u == v) = false := beq_eq_false_iff_ne.mpr h1
          refine ⟨fun st2 hst2 => ?_, fun e he => ?_⟩
          · simp [List.lookup, hb, (hmem2 u hu2).1 st2 hst2]
          · simp [List.lookup, hb, (hmem2 u hu2).2 e he]
    | error e0 =>
      cases hm : m.lookup v with
      | some st =>
        refine ⟨(v, st) :: L2, ?_, ?_, ?_⟩
        · simp [processResults, hr, hm, hL2, Except.map]
        · intro u hu
          have h1 : u ≠ v := fun h => hu (h ▸ List.mem_cons_self v rest)
          have h2 : u ∉ rest := fun h => hu (List.mem_cons_of_mem _ h)
          have hb : (u == v) = false := beq_eq_false_iff_ne.mpr h1
          simp [List.lookup, hb, hnot2 u h2]
        · intro u hu
          rcases List.mem_cons.mp hu with rfl | hu2
          · refine ⟨fun st2 hst2 => ?_, fun e2 he2 => ?_⟩
            · rw [hr] at hst2
              cases hst2
            · rw [hm]
              simp [List.lookup]
          · have h1 : u ≠ v := fun h => hv (h ▸ hu2)
            have hb : (u == v) = false := beq_eq_false_iff_ne.mpr h1
            refine ⟨fun st2 hst2 => ?_, fun e2 he2 => ?_⟩
            · simp [List.lookup, hb, (hmem2 u hu2).1 st2 hst2]
            · simp [List.lookup, hb, (hmem2 u hu2).2 e2 he2]
      | none =>
        refine ⟨L2, ?_, ?_, ?_⟩
        · simp [processResults, hr, hm, hL2, Except.map]
        · intro u hu
          have h2 : u ∉ rest := fun h => hu (List.mem_cons_of_mem _ h)
          exact hnot2 u h2
        · intro u hu
          rcases List.mem_cons.mp hu with rfl | hu2
          · refine ⟨fun st2 hst2 => ?_, fun e2 he2 => ?_⟩
            · rw [hr] at hst2
              cases hst2
            · rw [hm, hnot2 u hv]
          · exact hmem2 u hu2

/-- Claim C8: for a refresh cycle over distinct known device uuids in
which the coordinator holds a previous snapshot mapping (`self.data` is
a dict), `_async_update_data` returns a mapping — no exception escapes —
containing the fresh snapshot for every device whose status query
succeeded and, for each failing device, its previously cached snapshot
(a failing device with no cached snapshot is simply omitted: its lookup
agrees with the previous mapping's).  The per-device outcomes are
delivered independently by `asyncio.gather(..., return_exceptions=True)`,
so one device's failure does not disturb the entries of the others. -/
theorem refresh_tolerates_per_device_failures (uuids : List String)
    (results : String → Except ApiExc LockStatus)
    (m : List (String × LockStatus)) (hnd : uuids.Nodup) :
    ∃ L, asyncUpdateData uuids results (some m) = .ok L ∧
      ∀ u, u ∈ uuids →
        (∀ st, results u = .ok st → L.lookup u = some st) ∧
        (∀ e, results u = .error e → L.lookup u = m.lookup u) := by
  obtain ⟨L, hL, _, hprops⟩ := processResults_some_props m results uuids hnd
  exact ⟨L, by simp [asyncUpdateData, hL], hprops⟩

theorem refresh_tolerates_witness :
    (∃ L, asyncUpdateData ["a", "b", "c"] resultsW
        (some [("b", parseLockStatus (.obj [("is_locked", .num 1)]))]) = .ok L ∧
      ∀ u, u ∈ ["a", "b", "c"] →
        (∀ st, resultsW u = .ok st → L.lookup u = some st) ∧
        (∀ e, resultsW u = .error e →
          L.lookup u = List.lookup u [("b", parseLockStatus (.obj [("is_locked", .num 1)]))])) ∧
    asyncUpdateData ["a", "b", "c"] resultsW
        (some [("b", parseLockStatus (.obj [("is_locked", .num 1)]))])
      = .ok [("a", parseLockStatus (.obj [("is_locked", .num 2)])),
             ("b", parseLockStatus (.obj [("is_locked", .num 1)])),
             ("c", parseLockStatus (.obj [("is_locked", .num 2)]))] :=
  ⟨refresh_tolerates_per_device_failures ["a", "b", "c"] resultsW
      [("b", parseLockStatus (.obj [("is_locked", .num 1)]))] (by decide),
    rfl⟩

/-- Claim C10: on the very first refresh after construction, when the
coordinator has no previous data (`self.data` is `None`), any single
device failure makes the whole refresh fail: the `if uuid in self.data:`
test raises `TypeError`, the `except Exception` handler converts it to
`UpdateFailed("Unexpected error: ...")`, and no partial mapping of the
successful devices is returned. -/
theorem first_refresh_failure_aborts (uuids : List String)
    (results : String → Except ApiExc LockStatus)
    (u : String) (hu : u ∈ uuids) (e : ApiExc) (he : results u = .error e) :
    asyncUpdateData uuids results none =
      .error "Unexpected error: argument of type NoneType is not iterable" := by
  suffices h : processResults none (uuids.map fun x => (x, results x)) =
      .error "argument of type NoneType is not iterable" by
    simp [asyncUpdateData, h]
  induction uuids with
  | nil => exact absurd hu (List.not_mem_nil u)
  | cons v rest ih =>
    rcases List.mem_cons.mp hu with rfl | hu2
    · simp [processResults, he]
    · cases hr : results v with
      | ok st => simp [processResults, hr, ih hu2, Except.map]
      | error e2 => simp [processResults, hr]

theorem first_refresh_failure_witness :
    asyncUpdateData ["a", "b"]
        (fun u => if u == "b" then .error (.api "boom")
          else .ok (parseLockStatus (.obj [("is_locked", .num 2)]))) none
      = .error "Unexpected error: argument of type NoneType is not iterable" :=
  first_refresh_failure_aborts ["a", "b"] _ "b" (by decide) (.api "boom") rfl

end Ultraloq
